import Mathlib

/-!
Verification of the IBGE municipalities ETL pipeline
(`src/projeto_etl_ibge.py`).

The pipeline is six sequential stages over one in-memory pandas
DataFrame.  We embed the DataFrame shallowly: a frame is a list of
column labels together with rows, a row being an association list from
column label to cell value.  Cell values form a small JSON-like type
(`Value`): pandas `NaN`/`None` is `vnull`, numbers are integers,
strings are strings, and nested API records are objects.

Python exceptions are modelled as unreachable result constructors:
a stage function returns `Option`/`StageOut`, with `none`/`.exn`
standing for an uncaught exception and `.retNone` for the explicit
`return None` failure signal.  External effects (HTTP, the reference
CSV, the database) are passed in as explicit inputs: a `FetchOutcome`,
an optional reference frame, an `Env` of credentials, and a `DbWorld`
saying which database operations would raise.
-/

set_option autoImplicit false

/-! ## Cell values -/

mutual
/-- A cell / parsed-JSON value.  `vnull` is pandas `NaN` / JSON `null`. -/
inductive Value where
  | vnull : Value
  | vint (n : Int) : Value
  | vstr (s : String) : Value
  | varr (elems : ValueList) : Value
  | vobj (fields : ObjFields) : Value
  deriving DecidableEq, Repr

/-- A list of values (JSON array), first-order for decidable equality. -/
inductive ValueList where
  | nil : ValueList
  | cons (hd : Value) (tl : ValueList) : ValueList
  deriving DecidableEq, Repr

/-- Key/value fields of a JSON object, in document order. -/
inductive ObjFields where
  | nil : ObjFields
  | cons (k : String) (v : Value) (tl : ObjFields) : ObjFields
  deriving DecidableEq, Repr
end

/-- Convert a `ValueList` to an ordinary list. -/
def ValueList.toList : ValueList → List Value
  | .nil => []
  | .cons v tl => v :: tl.toList

/-- Convert object fields to an ordinary association list. -/
def ObjFields.toList : ObjFields → List (String × Value)
  | .nil => []
  | .cons k v tl => (k, v) :: tl.toList

/-- First field with the given key, if any. -/
def ObjFields.find? (fs : ObjFields) (k : String) : Option Value :=
  List.lookup k fs.toList

/-- Is this value a JSON object? -/
def Value.isObj : Value → Bool
  | .vobj _ => true
  | _ => false

/-- Navigate a key path through nested objects; `none` when a key on
the path is missing or an intermediate value is not an object. -/
def Value.getPath : Value → List String → Option Value
  | v, [] => some v
  | .vobj fs, k :: ks =>
    match fs.find? k with
    | some v => v.getPath ks
    | none => none
  | _, _ :: _ => none

/-! ## DataFrames -/

/-- One row: cells keyed by column label, in column order. -/
abbrev Row : Type := List (String × Value)

/-- A pandas DataFrame: column labels plus rows. -/
structure DataFrame where
  cols : List String
  rows : List Row
  deriving DecidableEq, Repr

/-- Well-formed frame: every row has exactly the frame's columns as
keys, in order. -/
def DataFrame.WF (df : DataFrame) : Prop :=
  ∀ r ∈ df.rows, r.map Prod.fst = df.cols

instance (df : DataFrame) : Decidable df.WF := by
  unfold DataFrame.WF; infer_instance

/-- Cell of a row at a column, defaulting to `vnull` (pandas yields
`NaN` for a missing key when a frame is built from ragged records). -/
def getCellD (r : Row) (c : String) : Value :=
  (List.lookup c r).getD Value.vnull

/-- Model of `df.rename(columns=...)`: relabel columns, values kept. -/
def renameCols (f : String → String) (df : DataFrame) : DataFrame :=
  { cols := df.cols.map f
    rows := df.rows.map (fun r => r.map (fun p => (f p.fst, p.snd))) }

/-- Model of `df.drop(columns=[c])`: pandas raises `KeyError` when the
label is absent, hence the `Option`. -/
def dropCol (df : DataFrame) (c : String) : Option DataFrame :=
  if c ∈ df.cols then
    some { cols := df.cols.filter (fun d => d ≠ c)
           rows := df.rows.map (fun r => r.filter (fun p => p.fst ≠ c)) }
  else none

/-- Model of column assignment `df[c] = series` where the series is
computed row-wise from `df` itself: overwrite the column when present,
otherwise append it on the right. -/
def setCol (df : DataFrame) (c : String) (f : Row → Value) : DataFrame :=
  if c ∈ df.cols then
    { cols := df.cols
      rows := df.rows.map (fun r => r.map (fun p => if p.fst = c then (p.fst, f r) else p)) }
  else
    { cols := df.cols ++ [c]
      rows := df.rows.map (fun r => r ++ [(c, f r)]) }

/-- Replace the cells of one column by a value-level map (used for the
in-place `to_numeric` reassignments). -/
def mapRowAt (c : String) (g : Value → Value) (r : Row) : Row :=
  r.map (fun p => if p.fst = c then (p.fst, g p.snd) else p)

/-- Model of `df[cs]` column selection: `KeyError` when a requested
label is absent. -/
def selectCols (df : DataFrame) (cs : List String) : Option DataFrame :=
  if cs.all (fun c => c ∈ df.cols) then
    some { cols := cs
           rows := df.rows.map (fun r => cs.map (fun c => (c, getCellD r c))) }
  else none

/-! ## Key-based de-duplication (pandas `drop_duplicates(keep='first')`) -/

/-- Keep the first element for each key, skipping elements whose key
was already seen.  `seen` accumulates the keys kept so far. -/
def dedupByAux {α β : Type} [DecidableEq β] (f : α → β) (seen : List β) : List α → List α
  | [] => []
  | x :: xs =>
    if f x ∈ seen then dedupByAux f seen xs
    else x :: dedupByAux f (f x :: seen) xs

/-- First-occurrence de-duplication by key. -/
def dedupBy {α β : Type} [DecidableEq β] (f : α → β) (l : List α) : List α :=
  dedupByAux f [] l

/-- Number of later duplicates by key: the value of
`duplicated(subset=[k]).sum()`. -/
def numDupsBy {α β : Type} [DecidableEq β] (f : α → β) (l : List α) : Nat :=
  l.length - (dedupBy f l).length

/-! ## Numeric coercion (`pd.to_numeric(..., errors='coerce')`) -/

/-- Parse a non-empty all-digit character list as a natural number. -/
def parseNatChars (cs : List Char) : Option Nat :=
  if cs.isEmpty then none
  else cs.foldl (fun acc c =>
    match acc with
    | none => none
    | some n => if c.isDigit then some (n * 10 + (c.toNat - 48)) else none) (some 0)

/-- Parse a decimal integer string (optional leading minus sign). -/
def parseIntStr (s : String) : Option Int :=
  match s.toList with
  | '-' :: rest => (parseNatChars rest).map (fun n => -(n : Int))
  | cs => (parseNatChars cs).map (fun n => (n : Int))

/-- Coercion of one cell.  Unparsable scalars become `vnull` (NaN);
containers make `to_numeric` raise `TypeError` even under `coerce`,
hence `none`.  (String parsing is modelled for decimal integers; the
pipeline's identifier columns are integers.) -/
def toNumeric : Value → Option Value
  | .vnull => some .vnull
  | .vint n => some (.vint n)
  | .vstr s =>
    some (match parseIntStr s with
          | some n => .vint n
          | none => .vnull)
  | .varr _ => none
  | .vobj _ => none

/-- Model of `df[c] = pd.to_numeric(df[c], errors='coerce')`: requires
the column to exist and every cell of it to be coercible. -/
def mapColNumeric (df : DataFrame) (c : String) : Option DataFrame :=
  if c ∈ df.cols ∧
     df.rows.all (fun r => r.all (fun p => p.fst ≠ c ∨ (toNumeric p.snd).isSome)) then
    some { cols := df.cols
           rows := df.rows.map (mapRowAt c (fun v => (toNumeric v).getD .vnull)) }
  else none

/-! ## Left merge (`pd.merge(..., how='left')`) -/

/-- Join-key match: pandas never matches on NaN keys. -/
def matchKey (a b : Value) : Bool :=
  if a = Value.vnull then false else a = b

/-- Output rows a left merge produces for one left row: one padded
row when no right row matches the key, otherwise one concatenated
row per match. -/
def mergeRow (right : DataFrame) (lk rk : String) (r : Row) : List Row :=
  let ms := right.rows.filter (fun rr => matchKey (getCellD r lk) (getCellD rr rk))
  if ms.isEmpty then [r ++ right.cols.map (fun c => (c, Value.vnull))]
  else ms.map (fun rr => r ++ rr)

/-- Model of `pd.merge(left, right, left_on=lk, right_on=rk,
how='left')`: each left row is paired with every matching right row,
or padded with nulls when no right row matches.  `KeyError` when a
join column is absent.  (Overlapping non-key column labels, which
pandas would suffix, do not occur in this pipeline and are not
modelled.) -/
def mergeLeft (left right : DataFrame) (lk rk : String) : Option DataFrame :=
  if lk ∈ left.cols ∧ rk ∈ right.cols then
    some { cols := left.cols ++ right.cols
           rows := left.rows.flatMap (mergeRow right lk rk) }
  else none

/-! ## Building a frame from a parsed JSON body (`pd.DataFrame(data)`) -/

/-- Keys of one record of a JSON array (order preserved). -/
def recordKeys : Value → List String
  | .vobj fs => fs.toList.map Prod.fst
  | _ => []

/-- Is every element of the array an object? -/
def allObjs (es : List Value) : Bool :=
  es.all Value.isObj

/-- Frame built from a JSON array of objects: columns are the union of
the records' keys in order of first appearance; a record missing a key
gets a `vnull` (NaN) cell. -/
def mkRecordFrame (es : List Value) : DataFrame :=
  let cols := dedupBy (fun s => s) (es.flatMap recordKeys)
  { cols := cols
    rows := es.map (fun v =>
      cols.map (fun c =>
        (c, match v with
            | .vobj fs => (fs.find? c).getD .vnull
            | _ => .vnull))) }

/-- Element of a JSON array at an index, defaulting to `vnull`. -/
def getArrD : Value → Nat → Value
  | .varr es, i => (es.toList.getD i .vnull)
  | _, _ => .vnull

/-- Length of a JSON array value, `none` for non-arrays. -/
def arrLen? : Value → Option Nat
  | .varr es => some es.toList.length
  | _ => none

/-- Frame built from a JSON object of columns: succeeds only when all
field values are arrays of one common length; otherwise the pandas
constructor raises (scalar values, ragged lengths). -/
def mkDictFrame (l : List (String × Value)) : Option DataFrame :=
  match l with
  | [] => some { cols := [], rows := [] }
  | (_, v) :: _ =>
    match arrLen? v with
    | none => none
    | some n =>
      if l.all (fun p => arrLen? p.snd = some n) then
        some { cols := l.map Prod.fst
               rows := (List.range n).map (fun i => l.map (fun p => (p.fst, getArrD p.snd i))) }
      else none

/-- Model of the `pd.DataFrame(data)` constructor on a parsed JSON
body.  `none` models an uncaught constructor exception.  An array that
is not all objects is modelled as the single positional column pandas
labels `0`. -/
def mkDataFrame : Value → Option DataFrame
  | .vnull => some { cols := [], rows := [] }
  | .vint _ => none
  | .vstr _ => none
  | .varr es =>
    let l := es.toList
    if allObjs l then some (mkRecordFrame l)
    else some { cols := ["0"], rows := l.map (fun v => [("0", v)]) }
  | .vobj fs => mkDictFrame fs.toList

/-! ## Stage 1: extraction (`extrair_dados`) -/

/-- Outcome of the HTTP layer: either a network-layer error
(timeout, connection failure, or `raise_for_status` on a non-2xx
status) or a successful response with a parsed JSON body. -/
inductive FetchOutcome where
  | netError : FetchOutcome
  | success (body : Value) : FetchOutcome
  deriving DecidableEq, Repr

/-- Result of a Python function returning `DataFrame | None`:
a value, the explicit `None` failure signal, or an uncaught
exception escaping the function. -/
inductive StageOut (α : Type) where
  | ret (a : α) : StageOut α
  | retNone : StageOut α
  | exn : StageOut α
  deriving DecidableEq, Repr

/-- Model of `extrair_dados`: every `requests.exceptions.RequestException`
(the network layer) is caught and turned into `return None`; the
DataFrame constructor runs outside that protection, so its failures
escape as exceptions.  The CSV backup write is a side effect with no
bearing on the returned value and is not modelled. -/
def extrair_dados : FetchOutcome → StageOut DataFrame
  | .netError => .retNone
  | .success body =>
    match mkDataFrame body with
    | some df => .ret df
    | none => .exn

/-! ## Stage 2: exploration (`explorar_dados`) -/

/-- Model of `explorar_dados`: diagnostic logging only (`shape`,
`info`, `describe`, `isnull`, `head`), no return value and no
mutation of the frame. -/
def explorar_dados (_ : DataFrame) : Unit := ()

/-! ## Stage 3: cleaning (`limpar_dados`) -/

/-- The column relabelling of `limpar_dados`. -/
def limparRen (c : String) : String :=
  if c = "id" then "id_municipio"
  else if c = "nome" then "nome_municipio"
  else c

/-- Key used for duplicate detection. -/
def keyIdMunicipio (r : Row) : Value := getCellD r "id_municipio"

/-- Model of `limpar_dados`: rename `id`/`nome`, then drop later rows
duplicating an earlier `id_municipio` (keep the first occurrence)
when any duplicate exists.  `duplicated(subset=['id_municipio'])`
raises `KeyError` when the column is absent, hence the `Option`. -/
def limpar_dados (df : DataFrame) : Option DataFrame :=
  let r := renameCols limparRen df
  if "id_municipio" ∈ r.cols then
    some (if numDupsBy keyIdMunicipio r.rows > 0 then
            { cols := r.cols, rows := dedupBy keyIdMunicipio r.rows }
          else r)
  else none

/-! ## Stage 4: transformation (`transformar_dados`) -/

/-- The nested state field of one row: value at
`microrregiao.mesorregiao.UF.<k>`, `vnull` (NaN) when absent — the
cell `json_normalize` leaves for that row. -/
def ufField (r : Row) (k : String) : Value :=
  ((getCellD r "microrregiao").getPath ["mesorregiao", "UF", k]).getD .vnull

/-- Guard for `pd.json_normalize(df['microrregiao'])` followed by the
three column reads: every cell must be an object (a non-dict record
makes `json_normalize` raise), and each flattened column
`mesorregiao.UF.<k>` must exist, i.e. be realised by at least one
row (otherwise the column read raises `KeyError`). -/
def transformGuard (df : DataFrame) : Bool :=
  df.rows.all (fun r => (getCellD r "microrregiao").isObj) &&
  (["id", "sigla", "nome"].all (fun k =>
    df.rows.any (fun r =>
      ((getCellD r "microrregiao").getPath ["mesorregiao", "UF", k]).isSome)))

/-- The state of the transformer's input frame after the three
in-place column assignments `df['id_uf'] = ...`,
`df['sigla_uf'] = ...`, `df['nome_uf'] = ...`. -/
def mutFrame (df : DataFrame) : DataFrame :=
  setCol (setCol (setCol df
    "id_uf" (fun r => ufField r "id"))
    "sigla_uf" (fun r => ufField r "sigla"))
    "nome_uf" (fun r => ufField r "nome")

/-- Model of `transformar_dados`.  Returns the state of the INPUT
frame after the call together with the returned frame: the three
column assignments `df['id_uf'] = ...` etc. mutate the caller's
frame in place (`mutFrame`), while the subsequent `drop`/`to_numeric`
steps act on fresh copies.  `none` models an uncaught exception
(missing `microrregiao` or `regiao-imediata` column, non-object
records, `to_numeric` on a container). -/
def transformar_dados (df : DataFrame) : Option (DataFrame × DataFrame) :=
  if "microrregiao" ∈ df.cols then
    if transformGuard df then
      match dropCol (mutFrame df) "microrregiao" with
      | none => none
      | some d1 =>
        match dropCol d1 "regiao-imediata" with
        | none => none
        | some d2 =>
          match mapColNumeric d2 "id_municipio" with
          | none => none
          | some d3 =>
            match mapColNumeric d3 "id_uf" with
            | none => none
            | some d4 => some (mutFrame df, d4)
    else none
  else none

/-! ## Stage 5: enrichment (`enriquecer_dados`) -/

/-- Model of `enriquecer_dados`.  The reference CSV read is passed in
as `regioesFile`; `none` stands for `FileNotFoundError`, which the
function catches and converts to `return None`.  On a successful
read it left-merges on `id_uf = codigo_uf` and drops `codigo_uf`;
a missing join column would raise, hence `.exn`. -/
def enriquecer_dados (regioesFile : Option DataFrame) (df : DataFrame) : StageOut DataFrame :=
  match regioesFile with
  | none => .retNone
  | some rg =>
    match mergeLeft df rg "id_uf" "codigo_uf" with
    | none => .exn
    | some merged =>
      match dropCol merged "codigo_uf" with
      | none => .exn
      | some out => .ret out

/-! ## Stage 6: load (`carregar_dados`) -/

/-- The four connection parameters read from the environment;
`none` is an unset variable. -/
structure Env where
  db_user : Option String
  db_password : Option String
  db_host : Option String
  db_name : Option String
  deriving DecidableEq, Repr

/-- Python truthiness of an optional string: `None` and the empty
string are falsy. -/
def truthy : Option String → Bool
  | none => false
  | some s => s ≠ ""

/-- The check `all([db_user, db_password, db_host, db_name])`. -/
def credsOk (env : Env) : Bool :=
  truthy env.db_user && truthy env.db_password && truthy env.db_host && truthy env.db_name

/-- The database-touching operations of the load step, in program
order. -/
inductive DbOp where
  | createEngine : DbOp
  | toSql : DbOp
  | connect : DbOp
  | alterPk : DbOp
  deriving DecidableEq, Repr

/-- Which database operations would raise, chosen by the external
world (server state, credentials validity, duplicate keys, ...). -/
structure DbWorld where
  createEngineFails : Bool
  toSqlFails : Bool
  connectFails : Bool
  alterFails : Bool
  deriving DecidableEq, Repr

/-- Does any database operation fail in this world? -/
def anyDbFail (w : DbWorld) : Bool :=
  w.createEngineFails || w.toSqlFails || w.connectFails || w.alterFails

/-- Body of the `try` block: operations attempted in order up to and
including the first failing one, plus whether an exception was
raised. -/
def runDbOps (w : DbWorld) : List DbOp × Bool :=
  if w.createEngineFails then ([.createEngine], true)
  else if w.toSqlFails then ([.createEngine, .toSql], true)
  else if w.connectFails then ([.createEngine, .toSql, .connect], true)
  else if w.alterFails then ([.createEngine, .toSql, .connect, .alterPk], true)
  else ([.createEngine, .toSql, .connect, .alterPk], false)

/-- Observable behaviour of one `carregar_dados` call. -/
structure LoaderTrace where
  opsRun : List DbOp
  raised : Bool
  caught : Bool
  abortedCreds : Bool
  deriving DecidableEq, Repr

/-- Model of `carregar_dados`: with any credential missing it returns
before touching the database; otherwise it runs the database
operations inside `try ... except Exception`, so an operation
failure is caught and logged, never re-raised (`raised` is the
flag for an exception escaping the call). -/
def carregar_dados (env : Env) (w : DbWorld) (_df : DataFrame) : LoaderTrace :=
  if credsOk env then
    let (ops, r) := runDbOps w
    { opsRun := ops, raised := false, caught := r, abortedCreds := false }
  else
    { opsRun := [], raised := false, caught := false, abortedCreds := true }

/-! ## The orchestrator (`pipeline_completa`) -/

/-- The six pipeline stages. -/
inductive Stage where
  | extract : Stage
  | explore : Stage
  | clean : Stage
  | transform : Stage
  | enrich : Stage
  | load : Stage
  deriving DecidableEq, Repr

/-- Terminal condition of one pipeline run.  `done` is reaching the
final success log line; `crashed` is an uncaught exception. -/
inductive PipeOutcome where
  | abortedExtraction : PipeOutcome
  | abortedEnrichment : PipeOutcome
  | crashed : PipeOutcome
  | done : PipeOutcome
  deriving DecidableEq, Repr

/-- Observable behaviour of one `pipeline_completa` run: the stages
entered in order, the terminal condition, the final frame handed to
the loader (when reached) and the loader's trace. -/
structure PipelineTrace where
  stagesRun : List Stage
  outcome : PipeOutcome
  finalTable : Option DataFrame
  loaderTrace : Option LoaderTrace
  deriving DecidableEq, Repr

/-- The final column selection of the orchestrator. -/
def colunas_finais : List String :=
  ["id_municipio", "nome_municipio", "id_uf", "sigla_uf", "nome_uf", "nome_regiao"]

/-- Model of `pipeline_completa`: strictly sequential, aborting after
extraction when it returns `None`, and after enrichment when it
returns `None`; every other stage failure is an uncaught exception
(`crashed`).  The loader's own failures never stop the run. -/
def pipeline_completa (fetch : FetchOutcome) (regioesFile : Option DataFrame)
    (env : Env) (w : DbWorld) : PipelineTrace :=
  match extrair_dados fetch with
  | .exn => { stagesRun := [.extract], outcome := .crashed,
              finalTable := none, loaderTrace := none }
  | .retNone => { stagesRun := [.extract], outcome := .abortedExtraction,
                  finalTable := none, loaderTrace := none }
  | .ret df =>
    match limpar_dados df with
    | none => { stagesRun := [.extract, .explore, .clean], outcome := .crashed,
                finalTable := none, loaderTrace := none }
    | some dfC =>
      match transformar_dados dfC with
      | none => { stagesRun := [.extract, .explore, .clean, .transform],
                  outcome := .crashed, finalTable := none, loaderTrace := none }
      | some (_, dfT) =>
        match enriquecer_dados regioesFile dfT with
        | .exn => { stagesRun := [.extract, .explore, .clean, .transform, .enrich],
                    outcome := .crashed, finalTable := none, loaderTrace := none }
        | .retNone => { stagesRun := [.extract, .explore, .clean, .transform, .enrich],
                        outcome := .abortedEnrichment, finalTable := none, loaderTrace := none }
        | .ret dfE =>
          match selectCols dfE colunas_finais with
          | none => { stagesRun := [.extract, .explore, .clean, .transform, .enrich],
                      outcome := .crashed, finalTable := none, loaderTrace := none }
          | some dfF =>
            let lt := carregar_dados env w dfF
            { stagesRun := [.extract, .explore, .clean, .transform, .enrich, .load],
              outcome := .done, finalTable := some dfF, loaderTrace := some lt }

/-- Default-extraction helper for `StageOut`. -/
def stageOutGetD {α : Type} (s : StageOut α) (d : α) : α :=
  match s with
  | .ret a => a
  | .retNone => d
  | .exn => d

/-- Row extension performed by the first in-place assignment
(`df['id_uf'] = ...`). -/
def ext1 (r : Row) : Row := r ++ [("id_uf", ufField r "id")]

/-- Row extension performed by the second in-place assignment
(`df['sigla_uf'] = ...`), acting on already-extended rows. -/
def ext2 (r : Row) : Row := r ++ [("sigla_uf", ufField r "sigla")]

/-- Row extension performed by the third in-place assignment
(`df['nome_uf'] = ...`). -/
def ext3 (r : Row) : Row := r ++ [("nome_uf", ufField r "nome")]

/-- Per-row effect of `drop(columns=[c])`. -/
def dropRow (c : String) (r : Row) : Row :=
  r.filter (fun p => p.fst ≠ c)

/-- The complete per-row effect of the transformer on one input row:
extend by the three flattened state columns, drop the two nested
columns, then coerce `id_municipio` and `id_uf` numerically. -/
def transRow (r : Row) : Row :=
  mapRowAt "id_uf" (fun v => (toNumeric v).getD .vnull)
    (mapRowAt "id_municipio" (fun v => (toNumeric v).getD .vnull)
      (dropRow "regiao-imediata" (dropRow "microrregiao" (ext3 (ext2 (ext1 r))))))

/-! ## Concrete data used by witnesses and counterexamples -/

/-- Build an object value from an association list. -/
def objOf : List (String × Value) → Value :=
  fun l => .vobj (l.foldr (fun p tl => .cons p.fst p.snd tl) .nil)

/-- Build an array value from a list. -/
def arrOf : List Value → Value :=
  fun l => .varr (l.foldr .cons .nil)

/-- The nested hierarchy record of the end-to-end scenario. -/
def microAlpha : Value :=
  objOf [("mesorregiao", objOf [("UF", objOf
    [("id", .vint 10), ("sigla", .vstr "AL"), ("nome", .vstr "Alagoas")])])]

/-- The raw record exactly as the end-to-end scenario states it:
note it has no `regiao-imediata` field. -/
def rawAlphaClaimed : Value :=
  objOf [("id", .vint 1), ("nome", .vstr "Alpha"), ("microrregiao", microAlpha)]

/-- The raw record amended with the `regiao-imediata` field the real
API always carries and the transformer unconditionally drops. -/
def rawAlphaAmended : Value :=
  objOf [("id", .vint 1), ("nome", .vstr "Alpha"), ("microrregiao", microAlpha),
         ("regiao-imediata", objOf [("id", .vint 110001)])]

/-- The enrichment table of the end-to-end scenario. -/
def rgNordeste : DataFrame :=
  { cols := ["codigo_uf", "nome_regiao"]
    rows := [[("codigo_uf", .vint 10), ("nome_regiao", .vstr "Nordeste")]] }

/-- An environment with all four connection parameters set. -/
def envFull : Env :=
  { db_user := some "u", db_password := some "p", db_host := some "h", db_name := some "d" }

/-- An environment whose database user is unset. -/
def envNoUser : Env :=
  { db_user := none, db_password := some "p", db_host := some "h", db_name := some "d" }

/-- A world where no database operation fails. -/
def wOk : DbWorld :=
  { createEngineFails := false, toSqlFails := false, connectFails := false, alterFails := false }

/-- A world where the bulk insert raises. -/
def wInsertFail : DbWorld :=
  { createEngineFails := false, toSqlFails := true, connectFails := false, alterFails := false }

/-- An empty frame, used as a default. -/
def emptyDF : DataFrame := { cols := [], rows := [] }

/-- The frame the Fetcher returns in the end-to-end scenario. -/
def dfRaw0 : DataFrame :=
  stageOutGetD (extrair_dados (.success (arrOf [rawAlphaAmended]))) emptyDF

/-- The frame after cleaning in the end-to-end scenario. -/
def dfClean0 : DataFrame := (limpar_dados dfRaw0).getD emptyDF

/-- The (mutated input, output) pair of the transformer in the
end-to-end scenario. -/
def dfTransPair0 : DataFrame × DataFrame :=
  (transformar_dados dfClean0).getD (emptyDF, emptyDF)

/-- The frame after enrichment in the end-to-end scenario. -/
def dfEnr0 : DataFrame :=
  stageOutGetD (enriquecer_dados (some rgNordeste) dfTransPair0.2) emptyDF

/-- The final frame of the end-to-end scenario. -/
def dfFinal0 : DataFrame := (selectCols dfEnr0 colunas_finais).getD emptyDF

/-- A well-formed one-row input for the transformer, used to exhibit
the in-place mutation of the caller's frame. -/
def dfNineIn : DataFrame :=
  { cols := ["id_municipio", "microrregiao", "regiao-imediata"]
    rows := [[("id_municipio", Value.vint 1), ("microrregiao", microAlpha),
              ("regiao-imediata", Value.vnull)]] }

/-- The state of `dfNineIn` after the transformer returns: the three
flattened state columns have been appended to the caller's frame. -/
def dfNineMut : DataFrame :=
  { cols := ["id_municipio", "microrregiao", "regiao-imediata",
             "id_uf", "sigla_uf", "nome_uf"]
    rows := [[("id_municipio", Value.vint 1), ("microrregiao", microAlpha),
              ("regiao-imediata", Value.vnull), ("id_uf", Value.vint 10),
              ("sigla_uf", Value.vstr "AL"), ("nome_uf", Value.vstr "Alagoas")]] }

/-- The frame the transformer returns on `dfNineIn`. -/
def dfNineOut : DataFrame :=
  { cols := ["id_municipio", "id_uf", "sigla_uf", "nome_uf"]
    rows := [[("id_municipio", Value.vint 1), ("id_uf", Value.vint 10),
              ("sigla_uf", Value.vstr "AL"), ("nome_uf", Value.vstr "Alagoas")]] }

/-- The frame the enricher returns on `dfNineOut` and `rgNordeste`. -/
def dfEnrNine : DataFrame :=
  { cols := ["id_municipio", "id_uf", "sigla_uf", "nome_uf", "nome_regiao"]
    rows := [[("id_municipio", Value.vint 1), ("id_uf", Value.vint 10),
              ("sigla_uf", Value.vstr "AL"), ("nome_uf", Value.vstr "Alagoas"),
              ("nome_regiao", Value.vstr "Nordeste")]] }

/-- A transformer input whose nested state identifier is the
non-numeric string "abc". -/
def dfTwoBad : DataFrame :=
  { cols := ["id_municipio", "microrregiao", "regiao-imediata"]
    rows := [[("id_municipio", Value.vint 1),
              ("microrregiao", objOf [("mesorregiao", objOf [("UF", objOf
                [("id", Value.vstr "abc"), ("sigla", Value.vstr "XX"),
                 ("nome", Value.vstr "X")])])]),
              ("regiao-imediata", Value.vnull)]] }

/-! ## Claim theorems -/

/-- C1 counterexample: on exactly the raw record of the end-to-end
scenario (which has no `regiao-imediata` field) the pipeline crashes
inside the transformer — `drop(columns=['regiao-imediata'])` raises
`KeyError` — so no table at all is handed to the Loader, let alone
the claimed row. -/
theorem c1_counterexample :
    (pipeline_completa (.success (arrOf [rawAlphaClaimed])) (some rgNordeste) envFull wOk).finalTable
      = none ∧
    (pipeline_completa (.success (arrOf [rawAlphaClaimed])) (some rgNordeste) envFull wOk).outcome
      = PipeOutcome.crashed ∧
    (pipeline_completa (.success (arrOf [rawAlphaClaimed])) (some rgNordeste) envFull wOk).stagesRun
      = [Stage.extract, Stage.explore, Stage.clean, Stage.transform] := by
  refine ⟨rfl, rfl, rfl⟩

/-- C1 (amended): with the raw record extended by the `regiao-imediata`
field that the transformer unconditionally drops, the pipeline hands
the Loader exactly the single claimed row. -/
theorem c1_end_to_end_amended :
    (pipeline_completa (.success (arrOf [rawAlphaAmended])) (some rgNordeste) envFull wOk).finalTable
      = some { cols := colunas_finais
               rows := [[("id_municipio", Value.vint 1),
                         ("nome_municipio", Value.vstr "Alpha"),
                         ("id_uf", Value.vint 10),
                         ("sigla_uf", Value.vstr "AL"),
                         ("nome_uf", Value.vstr "Alagoas"),
                         ("nome_regiao", Value.vstr "Nordeste")]] } ∧
    (pipeline_completa (.success (arrOf [rawAlphaAmended])) (some rgNordeste) envFull wOk).outcome
      = PipeOutcome.done := by
  refine ⟨rfl, rfl⟩

/-! ## Association-list toolkit -/

/-- Lookup distributes over append, preferring the left list. -/
theorem lookup_append (c : String) (l1 l2 : Row) :
    List.lookup c (l1 ++ l2) = (List.lookup c l1).or (List.lookup c l2) := by
  induction l1 with
  | nil => simp
  | cons p tl ih =>
    rcases p with ⟨k, v⟩
    by_cases h : c = k
    · simp [List.lookup_cons, h]
    · simp [List.lookup_cons, beq_false_of_ne h, ih]

/-- A key that does not occur among the keys is not found. -/
theorem lookup_eq_none_of_notMem (c : String) (l : Row) (h : c ∉ l.map Prod.fst) :
    List.lookup c l = none := by
  induction l with
  | nil => simp
  | cons p tl ih =>
    rcases p with ⟨k, v⟩
    simp only [List.map_cons, List.mem_cons] at h
    push_neg at h
    simp [List.lookup_cons, beq_false_of_ne h.1, ih h.2]

/-- Filtering out another column does not change a lookup. -/
theorem lookup_filter_ne (c d : String) (l : Row) (hcd : c ≠ d) :
    List.lookup c (l.filter (fun p => p.fst ≠ d)) = List.lookup c l := by
  induction l with
  | nil => simp
  | cons p tl ih =>
    rcases p with ⟨k, v⟩
    simp only [ne_eq, decide_not] at ih
    by_cases hk : k = d
    · subst hk
      simp only [List.filter_cons, ne_eq, decide_not]
      simp [List.lookup_cons, beq_false_of_ne hcd, ih]
    · by_cases hck : c = k
      · subst hck
        simp [List.filter_cons, hk, List.lookup_cons]
      · simp [List.filter_cons, hk, List.lookup_cons, beq_false_of_ne hck, ih]

/-- Lookup after an in-place column update. -/
theorem lookup_mapRowAt (c d : String) (g : Value → Value) (r : Row) :
    List.lookup c (mapRowAt d g r)
      = if c = d then (List.lookup c r).map g else List.lookup c r := by
  induction r with
  | nil => simp [mapRowAt]
  | cons p tl ih =>
    rcases p with ⟨k, v⟩
    have hstep : mapRowAt d g ((k, v) :: tl)
        = (if k = d then (k, g v) else (k, v)) :: mapRowAt d g tl := by
      simp [mapRowAt]
    rw [hstep]
    by_cases hkd : k = d
    · subst hkd
      by_cases hck : c = k
      · subst hck
        simp [List.lookup_cons]
      · simp [List.lookup_cons, beq_false_of_ne hck, ih]
    · by_cases hck : c = k
      · subst hck
        simp [hkd, List.lookup_cons, ih]
      · simp [hkd, List.lookup_cons, beq_false_of_ne hck, ih]

/-- Keys are unchanged by an in-place column update. -/
theorem keys_mapRowAt (d : String) (g : Value → Value) (r : Row) :
    (mapRowAt d g r).map Prod.fst = r.map Prod.fst := by
  induction r with
  | nil => rfl
  | cons p tl ih =>
    rcases p with ⟨k, v⟩
    by_cases hkd : k = d <;> simp [mapRowAt, hkd] at ih ⊢ <;> exact ih

/-! ## De-duplication lemmas -/

/-- De-duplication is idempotent for any fixed seen-set. -/
theorem dedupByAux_idem {α β : Type} [DecidableEq β] (f : α → β) (seen : List β)
    (l : List α) : dedupByAux f seen (dedupByAux f seen l) = dedupByAux f seen l := by
  induction l generalizing seen with
  | nil => rfl
  | cons x xs ih =>
    by_cases h : f x ∈ seen
    · simp [dedupByAux, h, ih]
    · simp [dedupByAux, h, ih (f x :: seen)]

/-- De-duplication is idempotent. -/
theorem dedupBy_idem {α β : Type} [DecidableEq β] (f : α → β) (l : List α) :
    dedupBy f (dedupBy f l) = dedupBy f l :=
  dedupByAux_idem f [] l

/-- A de-duplicated list has no duplicates left. -/
theorem numDupsBy_dedupBy {α β : Type} [DecidableEq β] (f : α → β) (l : List α) :
    numDupsBy f (dedupBy f l) = 0 := by
  simp [numDupsBy, dedupBy_idem]

/-- Every survivor of de-duplication came from the original list. -/
theorem mem_of_mem_dedupByAux {α β : Type} [DecidableEq β] (f : α → β) (seen : List β)
    (l : List α) (x : α) (hx : x ∈ dedupByAux f seen l) : x ∈ l := by
  induction l generalizing seen with
  | nil => simp [dedupByAux] at hx
  | cons y ys ih =>
    by_cases h : f y ∈ seen
    · simp only [dedupByAux, if_pos h] at hx
      exact List.mem_cons_of_mem _ (ih _ hx)
    · simp only [dedupByAux, if_neg h, List.mem_cons] at hx
      rcases hx with h1 | h2
      · exact h1 ▸ List.mem_cons_self _ _
      · exact List.mem_cons_of_mem _ (ih _ h2)

/-- The cleaner's relabelling is idempotent on column names. -/
theorem limparRen_idem (c : String) : limparRen (limparRen c) = limparRen c := by
  by_cases h1 : c = "id"
  · subst h1; decide
  · by_cases h2 : c = "nome"
    · subst h2; decide
    · simp [limparRen, h1, h2]

/-- Renaming a frame twice with the cleaner's relabelling is the same
as renaming once, for any frame whose columns and row keys are images
of the relabelling. -/
theorem renameCols_limparRen_fix (src out : DataFrame)
    (hcols : out.cols = (renameCols limparRen src).cols)
    (hrows : ∀ x ∈ out.rows, x ∈ (renameCols limparRen src).rows) :
    renameCols limparRen out = out := by
  have hrowfix : ∀ x ∈ out.rows,
      x.map (fun p => (limparRen p.fst, p.snd)) = x := by
    intro x hx
    have hx2 := hrows x hx
    simp only [renameCols, List.mem_map] at hx2
    obtain ⟨orig, _, horig⟩ := hx2
    subst horig
    rw [List.map_map]
    refine List.map_congr_left ?_
    intro p _
    simp [Function.comp, limparRen_idem]
  have hcolfix : out.cols.map limparRen = out.cols := by
    rw [hcols]
    simp only [renameCols, List.map_map]
    refine List.map_congr_left ?_
    intro c _
    simp [Function.comp, limparRen_idem]
  show DataFrame.mk (out.cols.map limparRen)
      (out.rows.map (fun r => r.map (fun p => (limparRen p.fst, p.snd)))) = out
  have : out.rows.map (fun r => r.map (fun p => (limparRen p.fst, p.snd))) = out.rows := by
    calc out.rows.map (fun r => r.map (fun p => (limparRen p.fst, p.snd)))
        = out.rows.map id := List.map_congr_left hrowfix
      _ = out.rows := List.map_id _
  rw [hcolfix, this]

/-- C4: the Cleaner is idempotent — on any table with the original
`id` and `nome` columns, cleaning its own output returns the output
unchanged, and the second pass finds zero duplicate rows. -/
theorem c4_cleaner_idempotent (df out : DataFrame)
    (hid : "id" ∈ df.cols) (_hnome : "nome" ∈ df.cols)
    (h : limpar_dados df = some out) :
    limpar_dados out = some out ∧ numDupsBy keyIdMunicipio out.rows = 0 := by
  have hg : "id_municipio" ∈ (renameCols limparRen df).cols := by
    simp only [renameCols]
    exact List.mem_map.mpr ⟨"id", hid, by decide⟩
  unfold limpar_dados at h
  rw [if_pos hg] at h
  have hout : out = (if numDupsBy keyIdMunicipio (renameCols limparRen df).rows > 0 then
      { cols := (renameCols limparRen df).cols,
        rows := dedupBy keyIdMunicipio (renameCols limparRen df).rows }
      else renameCols limparRen df) := by
    exact (Option.some.injEq _ _).mp h |>.symm
  have hcols : out.cols = (renameCols limparRen df).cols := by
    rw [hout]; split <;> rfl
  have hrows : ∀ x ∈ out.rows, x ∈ (renameCols limparRen df).rows := by
    intro x hx
    rw [hout] at hx
    by_cases hdup : numDupsBy keyIdMunicipio (renameCols limparRen df).rows > 0
    · rw [if_pos hdup] at hx
      exact mem_of_mem_dedupByAux keyIdMunicipio [] _ x hx
    · rw [if_neg hdup] at hx
      exact hx
  have hzero : numDupsBy keyIdMunicipio out.rows = 0 := by
    rw [hout]
    by_cases hdup : numDupsBy keyIdMunicipio (renameCols limparRen df).rows > 0
    · rw [if_pos hdup]
      exact numDupsBy_dedupBy keyIdMunicipio _
    · rw [if_neg hdup]
      omega
  have hfix : renameCols limparRen out = out :=
    renameCols_limparRen_fix df out hcols hrows
  refine ⟨?_, hzero⟩
  unfold limpar_dados
  rw [hfix, if_pos (hcols ▸ hg)]
  rw [if_neg (by omega : ¬ numDupsBy keyIdMunicipio out.rows > 0)]

/-- C4 witness: a concrete two-row table with a duplicated `id` is
cleaned to one row, and cleaning again is a fixed point with zero
duplicates found. -/
theorem c4_cleaner_idempotent_witness :
    limpar_dados { cols := ["id_municipio", "nome_municipio"],
                   rows := [[("id_municipio", Value.vint 7), ("nome_municipio", Value.vstr "A")]] } =
      some { cols := ["id_municipio", "nome_municipio"],
             rows := [[("id_municipio", Value.vint 7), ("nome_municipio", Value.vstr "A")]] } ∧
    numDupsBy keyIdMunicipio
      ([[("id_municipio", Value.vint 7), ("nome_municipio", Value.vstr "A")]] : List Row) = 0 :=
  c4_cleaner_idempotent
    { cols := ["id", "nome"],
      rows := [[("id", Value.vint 7), ("nome", Value.vstr "A")],
               [("id", Value.vint 7), ("nome", Value.vstr "B")]] }
    _ (by decide) (by decide) (by decide)

/-- C5: the Fetcher converts every network-layer error (timeout,
connection failure, non-2xx status) into the `None` failure signal
rather than an exception, and for a well-formed response — a JSON
array of objects — it returns a frame with exactly one row per array
element. -/
theorem c5_fetcher_contract :
    extrair_dados FetchOutcome.netError = StageOut.retNone ∧
    ∀ (es : ValueList), allObjs es.toList = true →
      extrair_dados (.success (.varr es)) = .ret (mkRecordFrame es.toList) ∧
      (mkRecordFrame es.toList).rows.length = es.toList.length := by
  refine ⟨rfl, ?_⟩
  intro es h
  constructor
  · simp [extrair_dados, mkDataFrame, h]
  · simp [mkRecordFrame]

/-- C5 witness: the one-record body of the end-to-end scenario is an
array of objects and yields a one-row frame. -/
theorem c5_fetcher_contract_witness :
    allObjs (ValueList.cons rawAlphaAmended .nil).toList = true ∧
    extrair_dados (.success (.varr (ValueList.cons rawAlphaAmended .nil)))
      = .ret (mkRecordFrame (ValueList.cons rawAlphaAmended .nil).toList) ∧
    (mkRecordFrame (ValueList.cons rawAlphaAmended .nil).toList).rows.length
      = (ValueList.cons rawAlphaAmended .nil).toList.length :=
  ⟨by decide, c5_fetcher_contract.2 (ValueList.cons rawAlphaAmended .nil) (by decide)⟩

/-- C10: a 2xx response whose body is valid JSON but not an array of
objects — here the bare scalar 5 — makes the frame constructor raise,
and the exception escapes the Fetcher (it is not a
`requests.exceptions.RequestException`); moreover no successful
response, whatever its body, ever produces the `None` failure signal:
only network-layer errors do. -/
theorem c10_scalar_body_uncaught :
    extrair_dados (.success (.vint 5)) = StageOut.exn ∧
    ∀ b : Value, extrair_dados (.success b) ≠ StageOut.retNone := by
  refine ⟨rfl, ?_⟩
  intro b
  unfold extrair_dados
  rcases h : mkDataFrame b with _ | d <;> simp [h]

/-- Whenever the load stage is entered at all, the run ends in `done`:
the orchestrator never treats the load step as fatal. -/
theorem load_mem_imp_done (fetch : FetchOutcome) (rg : Option DataFrame)
    (env : Env) (w : DbWorld) :
    Stage.load ∈ (pipeline_completa fetch rg env w).stagesRun →
    (pipeline_completa fetch rg env w).outcome = PipeOutcome.done := by
  unfold pipeline_completa
  repeat' split
  all_goals intro hm
  all_goals first
    | rfl
    | simp at hm

/-- C6: with any one of the four connection parameters unset, the
Loader runs zero database operations (no engine, no write, no DDL)
and returns through its credential check; and whenever a run of the
whole pipeline reaches the load stage it still terminates reporting
success. -/
theorem c6_missing_credential_aborts_load (env : Env) (w : DbWorld) (df : DataFrame)
    (h : env.db_user = none ∨ env.db_password = none ∨ env.db_host = none ∨
         env.db_name = none) :
    (carregar_dados env w df).opsRun = [] ∧
    (carregar_dados env w df).abortedCreds = true ∧
    ∀ (fetch : FetchOutcome) (rg : Option DataFrame),
      Stage.load ∈ (pipeline_completa fetch rg env w).stagesRun →
      (pipeline_completa fetch rg env w).outcome = PipeOutcome.done := by
  have hcreds : credsOk env = false := by
    rcases h with h | h | h | h <;> simp [credsOk, truthy, h]
  refine ⟨?_, ?_, ?_⟩
  · simp [carregar_dados, hcreds]
  · simp [carregar_dados, hcreds]
  · intro fetch rg hm
    exact load_mem_imp_done fetch rg env w hm

/-- C6 witness: with the user variable unset, the concrete end-to-end
run executes no database operation yet still finishes as done. -/
theorem c6_missing_credential_aborts_load_witness :
    (carregar_dados envNoUser wOk rgNordeste).opsRun = [] ∧
    (carregar_dados envNoUser wOk rgNordeste).abortedCreds = true ∧
    ∀ (fetch : FetchOutcome) (rg : Option DataFrame),
      Stage.load ∈ (pipeline_completa fetch rg envNoUser wOk).stagesRun →
      (pipeline_completa fetch rg envNoUser wOk).outcome = PipeOutcome.done :=
  c6_missing_credential_aborts_load envNoUser wOk rgNordeste (Or.inl rfl)

/-- C7: no exception of any database operation (engine creation, bulk
insert, connection, constraint addition) ever escapes the Loader —
whatever fails is caught inside it — and a run that reaches the load
stage still ends in the `done` state. -/
theorem c7_loader_never_raises (env : Env) (w : DbWorld) (df : DataFrame) :
    (carregar_dados env w df).raised = false ∧
    (credsOk env = true → anyDbFail w = true → (carregar_dados env w df).caught = true) ∧
    ∀ (fetch : FetchOutcome) (rg : Option DataFrame),
      Stage.load ∈ (pipeline_completa fetch rg env w).stagesRun →
      (pipeline_completa fetch rg env w).outcome = PipeOutcome.done := by
  refine ⟨?_, ?_, ?_⟩
  · by_cases hcreds : credsOk env = true <;>
      simp [carregar_dados, hcreds, runDbOps]
  · intro hcreds hfail
    rcases w with ⟨a, b, c, d⟩
    cases a <;> cases b <;> cases c <;> cases d <;>
      simp_all [carregar_dados, runDbOps, anyDbFail]
  · intro fetch rg hm
    exact load_mem_imp_done fetch rg env w hm

/-- C7 witness: with valid credentials and a failing bulk insert, the
exception is caught, nothing escapes, and the end-to-end run is done. -/
theorem c7_loader_never_raises_witness :
    (carregar_dados envFull wInsertFail rgNordeste).raised = false ∧
    (carregar_dados envFull wInsertFail rgNordeste).caught = true ∧
    (pipeline_completa (.success (arrOf [rawAlphaAmended])) (some rgNordeste)
        envFull wInsertFail).outcome = PipeOutcome.done := by
  obtain ⟨h1, h2, h3⟩ := c7_loader_never_raises envFull wInsertFail rgNordeste
  exact ⟨h1, h2 (by decide) (by decide),
         h3 (.success (arrOf [rawAlphaAmended])) (some rgNordeste) (by decide)⟩

/-- A successful HTTP response never yields the `None` failure signal:
the constructor either builds a frame or raises. -/
theorem extrair_success_ne_retNone (b : Value) :
    extrair_dados (.success b) ≠ StageOut.retNone := by
  unfold extrair_dados
  rcases h : mkDataFrame b with _ | d <;> simp [h]

/-- With the reference file present, the Enricher never returns the
`None` failure signal: it either returns a frame or raises. -/
theorem enriquecer_some_ne_retNone (rg df : DataFrame) :
    enriquecer_dados (some rg) df ≠ StageOut.retNone := by
  unfold enriquecer_dados
  rcases h1 : mergeLeft df rg "id_uf" "codigo_uf" with _ | merged
  · simp [h1]
  · rcases h2 : dropCol merged "codigo_uf" with _ | out <;> simp [h1, h2]

/-- C8: pipeline control flow.  An extraction failure signal aborts
with only the extract stage run; an enrichment failure signal aborts
with exactly the first five stages run; these are the only two
failure-signal abort points (an `abortedExtraction` outcome can only
come from a network error, an `abortedEnrichment` outcome only from a
missing reference file); and when every stage succeeds the six stages
run exactly once each, in order. -/
theorem c8_pipeline_control_flow (fetch : FetchOutcome) (rg : Option DataFrame)
    (env : Env) (w : DbWorld) :
    (fetch = .netError →
       pipeline_completa fetch rg env w =
         { stagesRun := [.extract], outcome := .abortedExtraction,
           finalTable := none, loaderTrace := none }) ∧
    ((pipeline_completa fetch rg env w).outcome = .abortedExtraction →
       fetch = .netError) ∧
    ((pipeline_completa fetch rg env w).outcome = .abortedEnrichment →
       rg = none ∧ (pipeline_completa fetch rg env w).stagesRun
         = [.extract, .explore, .clean, .transform, .enrich]) ∧
    (∀ (df dfC m dfT : DataFrame), extrair_dados fetch = .ret df →
       limpar_dados df = some dfC → transformar_dados dfC = some (m, dfT) →
       rg = none →
       (pipeline_completa fetch rg env w).stagesRun
         = [.extract, .explore, .clean, .transform, .enrich] ∧
       (pipeline_completa fetch rg env w).outcome = .abortedEnrichment) ∧
    (∀ (df dfC m dfT dfE dfF : DataFrame), extrair_dados fetch = .ret df →
       limpar_dados df = some dfC → transformar_dados dfC = some (m, dfT) →
       enriquecer_dados rg dfT = .ret dfE →
       selectCols dfE colunas_finais = some dfF →
       (pipeline_completa fetch rg env w).stagesRun
         = [.extract, .explore, .clean, .transform, .enrich, .load] ∧
       (pipeline_completa fetch rg env w).outcome = .done) := by
  refine ⟨?_, ?_, ?_, ?_, ?_⟩
  · intro h
    subst h
    rfl
  · intro hout
    cases fetch with
    | netError => rfl
    | success b =>
      exfalso
      unfold pipeline_completa at hout
      rcases hE : extrair_dados (.success b) with df | _ | _
      · simp only [hE] at hout
        repeat' split at hout
        all_goals simp at hout
      · exact extrair_success_ne_retNone b hE
      · simp only [hE] at hout
        simp at hout
  · intro hout
    unfold pipeline_completa at hout ⊢
    rcases hE : extrair_dados fetch with df | _ | _
    · simp only [hE] at hout ⊢
      rcases hL : limpar_dados df with _ | dfC
      · simp only [hL] at hout
        simp at hout
      · simp only [hL] at hout ⊢
        rcases hT : transformar_dados dfC with _ | pr
        · simp only [hT] at hout
          simp at hout
        · obtain ⟨m, dfT⟩ := pr
          simp only [hT] at hout ⊢
          rcases hEn : enriquecer_dados rg dfT with dfE | _ | _
          · simp only [hEn] at hout
            rcases hS : selectCols dfE colunas_finais with _ | dfF <;>
              simp only [hS] at hout <;> simp at hout
          · refine ⟨?_, by simp only [hEn]⟩
            cases rg with
            | none => rfl
            | some r => exact absurd hEn (enriquecer_some_ne_retNone r dfT)
          · simp only [hEn] at hout
            simp at hout
    · simp only [hE] at hout
      simp at hout
    · simp only [hE] at hout
      simp at hout
  · intro df dfC m dfT hE hL hT hrg
    subst hrg
    unfold pipeline_completa
    simp [hE, hL, hT, enriquecer_dados]
  · intro df dfC m dfT dfE dfF hE hL hT hEn hS
    unfold pipeline_completa
    simp [hE, hL, hT, hEn, hS]

/-- C8 witness: the concrete end-to-end run exercises the full
success path: all six stages run once, in order, ending done. -/
theorem c8_pipeline_control_flow_witness :
    (pipeline_completa (.success (arrOf [rawAlphaAmended])) (some rgNordeste) envFull wOk).stagesRun
      = [.extract, .explore, .clean, .transform, .enrich, .load] ∧
    (pipeline_completa (.success (arrOf [rawAlphaAmended])) (some rgNordeste) envFull wOk).outcome
      = PipeOutcome.done :=
  (c8_pipeline_control_flow (.success (arrOf [rawAlphaAmended])) (some rgNordeste)
      envFull wOk).2.2.2.2
    dfRaw0 dfClean0 dfTransPair0.1 dfTransPair0.2 dfEnr0 dfFinal0
    (by decide) (by decide) (by decide) (by decide) (by decide)

/-- Assigning a fresh column appends it on the right. -/
theorem setCol_new (df : DataFrame) (c : String) (f : Row → Value) (h : c ∉ df.cols) :
    setCol df c f = { cols := df.cols ++ [c], rows := df.rows.map (fun r => r ++ [(c, f r)]) } := by
  simp [setCol, h]

/-- Column labels after a column assignment. -/
theorem setCol_cols (df : DataFrame) (c : String) (f : Row → Value) :
    (setCol df c f).cols = if c ∈ df.cols then df.cols else df.cols ++ [c] := by
  unfold setCol
  split <;> rfl

/-- Rows after assigning a fresh column: each row is extended. -/
theorem setCol_rows_new (df : DataFrame) (c : String) (f : Row → Value)
    (h : c ∉ df.cols) :
    (setCol df c f).rows = df.rows.map (fun r => r ++ [(c, f r)]) := by
  simp [setCol, h]

/-- Columns of the transformer's mutated input frame: the three
flattened state columns are appended on the right. -/
theorem mutFrame_cols (df : DataFrame)
    (h1 : "id_uf" ∉ df.cols) (h2 : "sigla_uf" ∉ df.cols) (h3 : "nome_uf" ∉ df.cols) :
    (mutFrame df).cols = df.cols ++ ["id_uf", "sigla_uf", "nome_uf"] := by
  have c1 : (setCol df "id_uf" (fun r => ufField r "id")).cols = df.cols ++ ["id_uf"] := by
    rw [setCol_cols, if_neg h1]
  have c2 : (setCol (setCol df "id_uf" (fun r => ufField r "id"))
      "sigla_uf" (fun r => ufField r "sigla")).cols
      = (df.cols ++ ["id_uf"]) ++ ["sigla_uf"] := by
    rw [setCol_cols, c1, if_neg (by simp [h2])]
  unfold mutFrame
  rw [setCol_cols, c2, if_neg (by simp [h3])]
  simp

/-- Rows of the transformer's mutated input frame: every row gains
the three flattened state cells, pre-existing cells untouched. -/
theorem mutFrame_rows (df : DataFrame)
    (h1 : "id_uf" ∉ df.cols) (h2 : "sigla_uf" ∉ df.cols) (h3 : "nome_uf" ∉ df.cols) :
    (mutFrame df).rows = ((df.rows.map ext1).map ext2).map ext3 := by
  have c1 : (setCol df "id_uf" (fun r => ufField r "id")).cols = df.cols ++ ["id_uf"] := by
    rw [setCol_cols, if_neg h1]
  have c2 : (setCol (setCol df "id_uf" (fun r => ufField r "id"))
      "sigla_uf" (fun r => ufField r "sigla")).cols
      = (df.cols ++ ["id_uf"]) ++ ["sigla_uf"] := by
    rw [setCol_cols, c1, if_neg (by simp [h2])]
  have r1 : (setCol df "id_uf" (fun r => ufField r "id")).rows = df.rows.map ext1 := by
    rw [setCol_rows_new _ _ _ h1]; rfl
  have r2 : (setCol (setCol df "id_uf" (fun r => ufField r "id"))
      "sigla_uf" (fun r => ufField r "sigla")).rows = (df.rows.map ext1).map ext2 := by
    rw [setCol_rows_new _ _ _ (by rw [c1]; simp [h2]), r1]; rfl
  unfold mutFrame
  rw [setCol_rows_new _ _ _ (by rw [c2]; simp [h3]), r2]; rfl

/-- Full characterization of a successful transformer run on a frame
without the three target columns: the mutated input is the input
extended by the three flattened columns, and the output applies
`transRow` to every row. -/
theorem transformar_eq (df m out : DataFrame)
    (h1 : "id_uf" ∉ df.cols) (h2 : "sigla_uf" ∉ df.cols) (h3 : "nome_uf" ∉ df.cols)
    (h : transformar_dados df = some (m, out)) :
    m.cols = df.cols ++ ["id_uf", "sigla_uf", "nome_uf"] ∧
    m.rows = ((df.rows.map ext1).map ext2).map ext3 ∧
    out.cols = ((df.cols ++ ["id_uf", "sigla_uf", "nome_uf"]).filter
        (fun d => d ≠ "microrregiao")).filter (fun d => d ≠ "regiao-imediata") ∧
    out.rows = df.rows.map transRow := by
  unfold transformar_dados at h
  by_cases hmic : "microrregiao" ∈ df.cols
  case neg => rw [if_neg hmic] at h; simp at h
  rw [if_pos hmic] at h
  by_cases hg : transformGuard df = true
  case neg => rw [if_neg hg] at h; simp at h
  rw [if_pos hg] at h
  rcases hd1 : dropCol (mutFrame df) "microrregiao" with _ | d1
  · simp [hd1] at h
  simp only [hd1] at h
  rcases hd2 : dropCol d1 "regiao-imediata" with _ | d2
  · simp [hd2] at h
  simp only [hd2] at h
  rcases hd3 : mapColNumeric d2 "id_municipio" with _ | d3
  · simp [hd3] at h
  simp only [hd3] at h
  rcases hd4 : mapColNumeric d3 "id_uf" with _ | d4
  · simp [hd4] at h
  simp only [hd4] at h
  have hpair : (mutFrame df, d4) = (m, out) := Option.some.inj h
  have hm : m = mutFrame df := (congrArg Prod.fst hpair).symm
  have hout : out = d4 := (congrArg Prod.snd hpair).symm
  have hd1eq : { cols := (mutFrame df).cols.filter (fun d => d ≠ "microrregiao"),
                 rows := (mutFrame df).rows.map (dropRow "microrregiao") } = d1 := by
    unfold dropCol at hd1
    split at hd1
    · exact Option.some.inj hd1
    · simp at hd1
  have hd2eq : { cols := d1.cols.filter (fun d => d ≠ "regiao-imediata"),
                 rows := d1.rows.map (dropRow "regiao-imediata") } = d2 := by
    unfold dropCol at hd2
    split at hd2
    · exact Option.some.inj hd2
    · simp at hd2
  have hd3eq : { cols := d2.cols,
                 rows := d2.rows.map (mapRowAt "id_municipio"
                   (fun v => (toNumeric v).getD .vnull)) } = d3 := by
    unfold mapColNumeric at hd3
    split at hd3
    · exact Option.some.inj hd3
    · simp at hd3
  have hd4eq : { cols := d3.cols,
                 rows := d3.rows.map (mapRowAt "id_uf"
                   (fun v => (toNumeric v).getD .vnull)) } = d4 := by
    unfold mapColNumeric at hd4
    split at hd4
    · exact Option.some.inj hd4
    · simp at hd4
  have hmc := mutFrame_cols df h1 h2 h3
  have hmr := mutFrame_rows df h1 h2 h3
  refine ⟨?_, ?_, ?_, ?_⟩
  · rw [hm, hmc]
  · rw [hm, hmr]
  · rw [hout, ← hd4eq]
    show d3.cols = _
    rw [← hd3eq]
    show d2.cols = _
    rw [← hd2eq]
    show d1.cols.filter (fun d => d ≠ "regiao-imediata") = _
    rw [← hd1eq]
    show ((mutFrame df).cols.filter (fun d => d ≠ "microrregiao")).filter
        (fun d => d ≠ "regiao-imediata") = _
    rw [hmc]
  · rw [hout, ← hd4eq]
    show d3.rows.map _ = _
    rw [← hd3eq]
    show (d2.rows.map _).map _ = _
    rw [← hd2eq]
    show ((d1.rows.map _).map _).map _ = _
    rw [← hd1eq]
    show ((((mutFrame df).rows.map _).map _).map _).map _ = _
    rw [hmr]
    simp only [List.map_map]
    exact List.map_congr_left (fun r _ => rfl)

/-- Lookup in a single-entry association list. -/
theorem lookup_single (c d : String) (v : Value) :
    List.lookup c [(d, v)] = if c = d then some v else none := by
  by_cases h : c = d
  · simp [List.lookup_cons, h]
  · simp [List.lookup_cons, beq_false_of_ne h, h]

/-- Filtering a column out makes its key unfindable. -/
theorem lookup_filter_self (c : String) (l : Row) :
    List.lookup c (l.filter (fun p => p.fst ≠ c)) = none := by
  apply lookup_eq_none_of_notMem
  intro hmem
  obtain ⟨p, hp, hfst⟩ := List.mem_map.mp hmem
  have hpf := List.of_mem_filter hp
  simp only [ne_eq, decide_not, Bool.not_eq_eq_eq_not, Bool.not_true, decide_eq_false_iff_not] at hpf
  exact hpf hfst

/-- Lookup through a dropped column. -/
theorem lookup_dropRow (c d : String) (l : Row) :
    List.lookup c (dropRow d l) = if c = d then none else List.lookup c l := by
  by_cases h : c = d
  · subst h
    rw [if_pos rfl]
    exact lookup_filter_self c l
  · simp only [dropRow, if_neg h]
    exact lookup_filter_ne c d l h

/-- The nested state field ignores cells appended under other labels
than the nested column itself. -/
theorem ufField_append (r : Row) (c : String) (v : Value) (k : String)
    (hc : ¬ c = "microrregiao") :
    ufField (r ++ [(c, v)]) k = ufField r k := by
  unfold ufField getCellD
  rw [lookup_append, lookup_single,
      if_neg (fun hmc => hc hmc.symm)]
  cases List.lookup "microrregiao" r <;> rfl

/-- A label never survives the filter dropping it. -/
theorem notMem_filter_ne_self (a : String) (l : List String) :
    a ∉ l.filter (fun d => d ≠ a) := by
  intro hmem
  have := List.of_mem_filter hmem
  simp at this

/-- A successful transformer run implies the input had the nested
hierarchy column. -/
theorem transformar_micro_mem (df : DataFrame) (p : DataFrame × DataFrame)
    (h : transformar_dados df = some p) : "microrregiao" ∈ df.cols := by
  by_contra hmic
  unfold transformar_dados at h
  rw [if_neg hmic] at h
  simp at h

/-- Cell values of one transformed row, for a row that does not
already carry the three target labels: `id_uf` is the numeric
coercion of the nested state identifier, `sigla_uf` and `nome_uf`
are the nested abbreviation and name verbatim. -/
theorem transRow_cells (r : Row)
    (h1 : "id_uf" ∉ r.map Prod.fst) (h2 : "sigla_uf" ∉ r.map Prod.fst)
    (h3 : "nome_uf" ∉ r.map Prod.fst) :
    getCellD (transRow r) "id_uf" = (toNumeric (ufField r "id")).getD Value.vnull ∧
    getCellD (transRow r) "sigla_uf" = ufField r "sigla" ∧
    getCellD (transRow r) "nome_uf" = ufField r "nome" := by
  have e2 : ufField (ext1 r) "sigla" = ufField r "sigla" :=
    ufField_append r _ _ _ (by decide)
  have e3 : ufField (ext2 (ext1 r)) "nome" = ufField (ext1 r) "nome" :=
    ufField_append (ext1 r) _ _ _ (by decide)
  have e3b : ufField (ext1 r) "nome" = ufField r "nome" :=
    ufField_append r _ _ _ (by decide)
  have e3c : ∀ v1 v2 : Value,
      ufField (r ++ [("id_uf", v1), ("sigla_uf", v2)]) "nome" = ufField r "nome" := by
    intro v1 v2
    have hnone : List.lookup "microrregiao" [("id_uf", v1), ("sigla_uf", v2)] = none := by
      simp [List.lookup_cons]
    unfold ufField getCellD
    rw [lookup_append, hnone]
    cases List.lookup "microrregiao" r <;> rfl
  have b1 : List.lookup "id_uf" r = none := lookup_eq_none_of_notMem _ _ h1
  have b2 : List.lookup "sigla_uf" r = none := lookup_eq_none_of_notMem _ _ h2
  have b3 : List.lookup "nome_uf" r = none := lookup_eq_none_of_notMem _ _ h3
  refine ⟨?_, ?_, ?_⟩ <;>
    simp [transRow, getCellD, ext3, ext2, ext1, lookup_mapRowAt, lookup_dropRow,
          lookup_append, lookup_single, List.lookup_cons, b1, b2, b3, e2, e3, e3b,
          e3c, ufField_append, List.append_assoc]

/-- C9 counterexample: the Transformer mutates the table it receives.
On the concrete well-formed input `dfNineIn`, after the call the
caller's frame has become `dfNineMut` — it gained the three flattened
state columns — which differs from the original input. -/
theorem c9_counterexample :
    (transformar_dados dfNineIn).map Prod.fst = some dfNineMut ∧
    dfNineMut ≠ dfNineIn := by
  exact ⟨rfl, by decide⟩

/-- C9 (amended): the Transformer is the only stage with an in-place
effect on its input, and that effect is exactly appending the three
flattened state columns — every pre-existing column and cell of the
input is unchanged — while the frame it returns is still a new table
distinct from its (mutated) input.  The other stages are modelled as
pure frame builders, matching the code: rename/drop_duplicates/merge
all return fresh frames and the Profiler only reads. -/
theorem c9_transformer_mutation (df m out : DataFrame)
    (h1 : "id_uf" ∉ df.cols) (h2 : "sigla_uf" ∉ df.cols) (h3 : "nome_uf" ∉ df.cols)
    (h : transformar_dados df = some (m, out)) :
    m.cols = df.cols ++ ["id_uf", "sigla_uf", "nome_uf"] ∧
    m.rows = ((df.rows.map ext1).map ext2).map ext3 ∧
    m ≠ out := by
  obtain ⟨hc, hr, hoc, _⟩ := transformar_eq df m out h1 h2 h3 h
  have hmic : "microrregiao" ∈ df.cols := transformar_micro_mem df (m, out) h
  have hmm : "microrregiao" ∈ m.cols := by
    rw [hc]
    exact List.mem_append_left _ hmic
  have hom : "microrregiao" ∉ out.cols := by
    rw [hoc]
    intro hmem
    exact notMem_filter_ne_self "microrregiao" _ (List.mem_of_mem_filter hmem)
  refine ⟨hc, hr, ?_⟩
  intro he
  rw [he] at hmm
  exact hom hmm

/-- C9 witness: the amended mutation characterization evaluated on the
concrete input `dfNineIn`. -/
theorem c9_transformer_mutation_witness :
    dfNineMut.cols = dfNineIn.cols ++ ["id_uf", "sigla_uf", "nome_uf"] ∧
    dfNineMut.rows = ((dfNineIn.rows.map ext1).map ext2).map ext3 ∧
    dfNineMut ≠ dfNineOut :=
  c9_transformer_mutation dfNineIn dfNineMut dfNineOut
    (by decide) (by decide) (by decide) (by decide)

/-- C2 counterexample: with a nested state identifier that is the
non-numeric string "abc", the transformed `id_uf` cell is null (the
`errors='coerce'` policy), not the identifier found in the nested
record, so `id_uf` does not always equal the nested identifier. -/
theorem c2_counterexample :
    (transformar_dados dfTwoBad).map (fun p => p.2.rows.map (fun r => getCellD r "id_uf"))
      = some [Value.vnull] ∧
    (transformar_dados dfTwoBad).map (fun p => p.2.rows.map (fun r => getCellD r "id_uf"))
      ≠ some [Value.vstr "abc"] := by
  exact ⟨rfl, by decide⟩

/-- C2 (amended): for every well-formed input with the nested
hierarchy column (and without the three target columns), the
Transformer's output rows correspond one-to-one with the input rows;
in each output row `id_uf` is the NUMERIC COERCION of the state
identifier found at micro-region → meso-region → state in the same
row's original nested record — equal to the identifier itself
whenever that identifier is an integer — while `sigla_uf` and
`nome_uf` equal the nested abbreviation and name verbatim, and the
two nested columns are absent from the output. -/
theorem c2_transformer_flattening (df m out : DataFrame) (hWF : df.WF)
    (h1 : "id_uf" ∉ df.cols) (h2 : "sigla_uf" ∉ df.cols) (h3 : "nome_uf" ∉ df.cols)
    (h : transformar_dados df = some (m, out)) :
    "microrregiao" ∉ out.cols ∧ "regiao-imediata" ∉ out.cols ∧
    List.Forall₂ (fun rin rout =>
      getCellD rout "id_uf" = (toNumeric (ufField rin "id")).getD Value.vnull ∧
      getCellD rout "sigla_uf" = ufField rin "sigla" ∧
      getCellD rout "nome_uf" = ufField rin "nome" ∧
      ∀ n : Int, ufField rin "id" = .vint n → getCellD rout "id_uf" = .vint n)
      df.rows out.rows := by
  obtain ⟨_, _, hoc, hor⟩ := transformar_eq df m out h1 h2 h3 h
  refine ⟨?_, ?_, ?_⟩
  · rw [hoc]
    intro hmem
    exact notMem_filter_ne_self "microrregiao" _ (List.mem_of_mem_filter hmem)
  · rw [hoc]
    exact notMem_filter_ne_self "regiao-imediata" _
  · rw [hor]
    rw [List.forall₂_map_right_iff]
    rw [List.forall₂_same]
    intro r hr
    have hkeys : r.map Prod.fst = df.cols := hWF r hr
    have hr1 : "id_uf" ∉ r.map Prod.fst := by rw [hkeys]; exact h1
    have hr2 : "sigla_uf" ∉ r.map Prod.fst := by rw [hkeys]; exact h2
    have hr3 : "nome_uf" ∉ r.map Prod.fst := by rw [hkeys]; exact h3
    obtain ⟨ha, hb, hcc⟩ := transRow_cells r hr1 hr2 hr3
    refine ⟨ha, hb, hcc, ?_⟩
    intro n hn
    rw [ha, hn]
    rfl

/-- C2 witness: the amended flattening contract evaluated on the
concrete one-row input `dfNineIn`. -/
theorem c2_transformer_flattening_witness :
    "microrregiao" ∉ dfNineOut.cols ∧ "regiao-imediata" ∉ dfNineOut.cols ∧
    List.Forall₂ (fun rin rout =>
      getCellD rout "id_uf" = (toNumeric (ufField rin "id")).getD Value.vnull ∧
      getCellD rout "sigla_uf" = ufField rin "sigla" ∧
      getCellD rout "nome_uf" = ufField rin "nome" ∧
      ∀ n : Int, ufField rin "id" = .vint n → getCellD rout "id_uf" = .vint n)
      dfNineIn.rows dfNineOut.rows :=
  c2_transformer_flattening dfNineIn dfNineMut dfNineOut
    (by decide) (by decide) (by decide) (by decide) (by decide)

/-- A matching join key is non-null and equals the right key value. -/
theorem matchKey_eq {a b : Value} (h : matchKey a b = true) :
    a = b ∧ a ≠ Value.vnull := by
  unfold matchKey at h
  split at h
  · exact absurd h (by simp)
  · rename_i hnull
    exact ⟨of_decide_eq_true h, hnull⟩

/-- A filter selecting a single key value keeps at most one element
of a list whose key values are pairwise distinct. -/
theorem length_filter_le_one {α β : Type} [DecidableEq β] (l : List α) (f : α → β) (b : β)
    (p : α → Bool) (hp : ∀ x, p x = true → f x = b) (hnd : (l.map f).Nodup) :
    (l.filter p).length ≤ 1 := by
  induction l with
  | nil => simp
  | cons x xs ih =>
    simp only [List.map_cons, List.nodup_cons] at hnd
    by_cases hx : p x = true
    · rw [List.filter_cons_of_pos hx]
      have hempty : xs.filter p = [] := by
        rw [List.filter_eq_nil_iff]
        intro y hy hpy
        exact hnd.1 (List.mem_map.mpr ⟨y, hy, (hp y hpy).trans (hp x hx).symm⟩)
      rw [hempty]
      simp
    · rw [List.filter_cons_of_neg (by simpa using hx)]
      exact ih hnd.2

/-- With pairwise-distinct reference keys, every left row produces
exactly one merged row. -/
theorem mergeRow_length_one (rg : DataFrame) (r : Row)
    (hnd : (rg.rows.map (fun rr => getCellD rr "codigo_uf")).Nodup) :
    (mergeRow rg "id_uf" "codigo_uf" r).length = 1 := by
  simp only [mergeRow]
  by_cases he : (rg.rows.filter
      (fun rr => matchKey (getCellD r "id_uf") (getCellD rr "codigo_uf"))).isEmpty
  · rw [if_pos he]
    rfl
  · rw [if_neg he, List.length_map]
    have hle : (rg.rows.filter
        (fun rr => matchKey (getCellD r "id_uf") (getCellD rr "codigo_uf"))).length ≤ 1 :=
      length_filter_le_one rg.rows _ (getCellD r "id_uf") _
        (fun rr hm => ((matchKey_eq hm).1).symm) hnd
    have hpos : ¬ (rg.rows.filter
        (fun rr => matchKey (getCellD r "id_uf") (getCellD rr "codigo_uf"))).length = 0 := by
      intro h0
      exact he (by simpa [List.isEmpty_iff_length_eq_zero] using h0)
    omega

/-- A flat map whose pieces all have one element preserves length. -/
theorem length_flatMap_one {α β : Type} (l : List α) (f : α → List β)
    (h : ∀ x ∈ l, (f x).length = 1) : (l.flatMap f).length = l.length := by
  induction l with
  | nil => rfl
  | cons x xs ih =>
    rw [List.flatMap_cons, List.length_append, h x (List.mem_cons_self x xs),
        ih (fun y hy => h y (List.mem_cons_of_mem x hy)), List.length_cons]
    omega

/-- A key present among the labels is found by lookup. -/
theorem lookup_isSome_of_mem (c : String) (l : Row) (h : c ∈ l.map Prod.fst) :
    ∃ v, List.lookup c l = some v := by
  induction l with
  | nil => simp at h
  | cons p tl ih =>
    rcases p with ⟨k, v⟩
    by_cases hck : c = k
    · exact ⟨v, by simp [List.lookup_cons, hck]⟩
    · simp only [List.map_cons, List.mem_cons] at h
      rcases h with h | h
      · exact absurd h hck
      · obtain ⟨w, hw⟩ := ih h
        exact ⟨w, by simp [List.lookup_cons, beq_false_of_ne hck, hw]⟩

/-- C3: for a well-formed main table with the `id_uf` key and a
reference table of shape {codigo_uf, nome_regiao} with pairwise
distinct `codigo_uf` keys, the Enricher's left join preserves the
main table's row count exactly, gives a null `nome_regiao` to every
row whose `id_uf` occurs in no reference row, and the `codigo_uf`
column is dropped from the output. -/
theorem c3_enricher_left_join (df rg out : DataFrame)
    (hWFdf : df.WF)
    (hrgcols : rg.cols = ["codigo_uf", "nome_regiao"])
    (hid : "id_uf" ∈ df.cols)
    (hnr : "nome_regiao" ∉ df.cols)
    (hnd : (rg.rows.map (fun rr => getCellD rr "codigo_uf")).Nodup)
    (h : enriquecer_dados (some rg) df = .ret out) :
    out.rows.length = df.rows.length ∧
    (∀ rout ∈ out.rows,
      getCellD rout "id_uf" ∉ rg.rows.map (fun rr => getCellD rr "codigo_uf") →
      getCellD rout "nome_regiao" = Value.vnull) ∧
    "codigo_uf" ∉ out.cols := by
  unfold enriquecer_dados at h
  rcases hM : mergeLeft df rg "id_uf" "codigo_uf" with _ | merged
  · simp [hM] at h
  simp only [hM] at h
  rcases hD : dropCol merged "codigo_uf" with _ | out2
  · simp [hD] at h
  simp only [hD] at h
  cases h
  have hMeq : { cols := df.cols ++ rg.cols,
                rows := df.rows.flatMap (mergeRow rg "id_uf" "codigo_uf") } = merged := by
    unfold mergeLeft at hM
    split at hM
    · exact Option.some.inj hM
    · simp at hM
  have hDeq : { cols := merged.cols.filter (fun d => d ≠ "codigo_uf"),
                rows := merged.rows.map (dropRow "codigo_uf") } = out := by
    unfold dropCol at hD
    split at hD
    · exact Option.some.inj hD
    · simp at hD
  refine ⟨?_, ?_, ?_⟩
  · rw [← hDeq]
    show (merged.rows.map (dropRow "codigo_uf")).length = df.rows.length
    rw [List.length_map, ← hMeq]
    show (df.rows.flatMap (mergeRow rg "id_uf" "codigo_uf")).length = df.rows.length
    exact length_flatMap_one _ _ (fun r _ => mergeRow_length_one rg r hnd)
  · intro rout hmem hnotin
    rw [← hDeq] at hmem
    obtain ⟨x, hx, rfl⟩ := List.mem_map.mp hmem
    rw [← hMeq] at hx
    obtain ⟨r, hr, hxr⟩ := List.mem_flatMap.mp hx
    simp only [mergeRow] at hxr
    by_cases he : (rg.rows.filter
        (fun rr => matchKey (getCellD r "id_uf") (getCellD rr "codigo_uf"))).isEmpty
    · rw [if_pos he] at hxr
      simp only [List.mem_singleton] at hxr
      subst hxr
      have hlr : List.lookup "nome_regiao" r = none :=
        lookup_eq_none_of_notMem _ _ (by rw [hWFdf r hr]; exact hnr)
      rw [hrgcols]
      simp [getCellD, lookup_dropRow, lookup_append, hlr, List.lookup_cons]
    · rw [if_neg he] at hxr
      obtain ⟨rr, hrr, rfl⟩ := List.mem_map.mp hxr
      have hrrf := List.of_mem_filter hrr
      have hrrm := List.mem_of_mem_filter hrr
      obtain ⟨keq, _⟩ := matchKey_eq hrrf
      obtain ⟨v, hv⟩ := lookup_isSome_of_mem "id_uf" r (by rw [hWFdf r hr]; exact hid)
      have hcell : getCellD (dropRow "codigo_uf" (r ++ rr)) "id_uf" = v := by
        simp [getCellD, lookup_dropRow, lookup_append, hv]
      exfalso
      apply hnotin
      rw [hcell]
      have hveq : v = getCellD rr "codigo_uf" := by
        have hrv : getCellD r "id_uf" = v := by simp [getCellD, hv]
        rw [← hrv]
        exact keq
      rw [hveq]
      exact List.mem_map.mpr ⟨rr, hrrm, rfl⟩
  · rw [← hDeq]
    show "codigo_uf" ∉ merged.cols.filter (fun d => d ≠ "codigo_uf")
    exact notMem_filter_ne_self _ _

/-- C3 witness: the left-join contract evaluated on the concrete
transformed one-row table and the one-row reference table. -/
theorem c3_enricher_left_join_witness :
    dfEnrNine.rows.length = dfNineOut.rows.length ∧
    (∀ rout ∈ dfEnrNine.rows,
      getCellD rout "id_uf" ∉ rgNordeste.rows.map (fun rr => getCellD rr "codigo_uf") →
      getCellD rout "nome_regiao" = Value.vnull) ∧
    "codigo_uf" ∉ dfEnrNine.cols :=
  c3_enricher_left_join dfNineOut rgNordeste dfEnrNine
    (by decide) (by decide) (by decide) (by decide) (by decide) (by decide)
